import Mathlib

/-!
A shallow embedding of `src/src/unix/lwt_libev_stubs.c` (the libev stubs of
the Lwt reactor) and proofs about its operations.

The C file manipulates four pieces of process-wide state:
  * `lwt_unix_main_loop`   — the libev loop singleton (a nullable pointer);
  * `lwt_unix_in_blocking_section` — the Blocking-Section flag;
  * the OCaml runtime's blocking-section status, toggled by
    `caml_enter_blocking_section` / `caml_leave_blocking_section`;
  * a heap of malloc-ed watcher descriptors (`struct ev_io` / `ev_signal` /
    `ev_timer`), each with a `data` slot holding the callback, a set of
    generational global roots pinning those callbacks, and the loop's
    active-watcher and unloop state.

The embedding models the heap as `Nat → Option EvWatcher` (descriptor
addresses are allocation indices), the pinned roots as the list of addresses
whose `data` slot is registered, and every C statement of the init/stop
functions as one explicit `Action`, so that the order of effects each C
function performs is part of the model and can be stated.  Callbacks are
opaque: invoking one is recorded in a trace (`CallRec`) together with the
value the Blocking-Section flag has at the moment of the call.  The libev
internals this file relies on are exactly the documented ones: `ev_loop` in
`EVLOOP_ONESHOT` mode polls once and then invokes the pending watchers'
trampolines; a timer whose `repeat` is zero is stopped by the loop before its
trampoline runs; `ev_unloop (loop, EVUNLOOP_ONE)` sets the loop's own
break state, which `ev_loop` resets when it (re-)enters.
-/

namespace LwtLibev

/-- The two I/O directions, `EV_READ` and `EV_WRITE`. -/
inductive EvEventKind where
  | ev_read
  | ev_write
deriving DecidableEq

/-- What `ev_io_init` / `ev_signal_init` / `ev_timer_init` write into a
descriptor: the kind-specific parameters.  A timer carries its `after`
delay and its `repeat` value (`lwt_libev_timer_init` always passes 0 for
the latter). -/
inductive WKind where
  | io (fd : Nat) (ev : EvEventKind)
  | sig (signum : Int)
  | timer (after : Rat) (rep : Rat)
deriving DecidableEq

/-- One malloc-ed watcher descriptor.  `kind` is `none` until the
`ev_*_init` call fills it in; `data` is the descriptor's user-data slot
(`none` until the callback is stored); `active` says whether the watch has
been started against the loop and not stopped. -/
structure EvWatcher where
  kind : Option WKind
  data : Option Nat
  active : Bool
deriving DecidableEq

/-- The process-wide state the stubs manipulate. -/
@[ext]
structure RState where
  /-- `lwt_unix_main_loop`: the loop singleton, `none` when NULL. -/
  main_loop : Option Nat
  /-- `lwt_unix_in_blocking_section`. -/
  in_blocking_section : Bool
  /-- Whether the OCaml runtime's blocking section is currently entered. -/
  runtime_released : Bool
  /-- The descriptor heap, by allocation index. -/
  descs : Nat → Option EvWatcher
  /-- Addresses whose `data` slot is registered as a generational global
  root (the callback pins). -/
  pinned : List Nat
  /-- Next fresh allocation index (`lwt_unix_new` / malloc). -/
  nextId : Nat
  /-- The loop's pending `EVUNLOOP_ONE` request. -/
  break_one : Bool

/-- Write one heap cell. -/
def setDesc (s : RState) (id : Nat) (w : Option EvWatcher) : RState :=
  { s with descs := fun n => if n = id then w else s.descs n }

/-! ## Loop lifecycle -/

/-- `ev_default_loop (EVFLAG_FORKCHECK)`: returns the default loop, or NULL
when the environment does not allow creating it.  Whether creation succeeds
is an environment fact, passed in as `ok`. -/
def ev_default_loop (ok : Bool) : Option Nat :=
  if ok then some 0 else none

/-- `lwt_libev_init`: if the singleton is NULL, assign it
`ev_default_loop (EVFLAG_FORKCHECK)` and fail with
`caml_failwith` when the result is still NULL.  The second component is the
outcome: `Except.error` models the raised failure. -/
def lwt_libev_init (ok : Bool) (s : RState) : RState × Except String Unit :=
  match s.main_loop with
  | some _ => (s, Except.ok ())
  | none =>
    let s1 := { s with main_loop := ev_default_loop ok }
    match s1.main_loop with
    | none => (s1, Except.error "lwt_libev_init: could not initialise the default loop")
    | some _ => (s1, Except.ok ())

/-- `lwt_libev_stop`: if the singleton is non-NULL, `ev_loop_destroy` it and
reset it to NULL. -/
def lwt_libev_stop (s : RState) : RState :=
  match s.main_loop with
  | some _ => { s with main_loop := none }
  | none => s

/-! ## Blocking-Section coordination -/

/-- `caml_enter_blocking_section`: release the runtime. -/
def caml_enter_blocking_section (s : RState) : RState :=
  { s with runtime_released := true }

/-- `caml_leave_blocking_section`: re-acquire the runtime. -/
def caml_leave_blocking_section (s : RState) : RState :=
  { s with runtime_released := false }

/-- The `LWT_UNIX_CHECK` macro: if the flag is set, clear it and leave the
runtime's blocking section. -/
def LWT_UNIX_CHECK (s : RState) : RState :=
  if s.in_blocking_section then
    caml_leave_blocking_section { s with in_blocking_section := false }
  else s

/-! ## Trampolines and the multiplexer round -/

/-- A recorded invocation of a pinned callback (`caml_callback
(watcher->data, Val_unit)`): which descriptor fired, the callback held in
its `data` slot, and the value of the Blocking-Section flag at the moment
the callback is entered. -/
structure CallRec where
  wid : Nat
  cb : Option Nat
  flagAtCall : Bool
deriving DecidableEq

/-- `handle_io`: `LWT_UNIX_CHECK;` then call the callback stored in the
descriptor's `data` slot, recording the flag's value at that moment. -/
def handle_io (wid : Nat) (s : RState) : RState × List CallRec :=
  match (LWT_UNIX_CHECK s).descs wid with
  | some w => (LWT_UNIX_CHECK s, [⟨wid, w.data, (LWT_UNIX_CHECK s).in_blocking_section⟩])
  | none => (LWT_UNIX_CHECK s, [])

/-- `handle_signal`: same body as `handle_io`. -/
def handle_signal (wid : Nat) (s : RState) : RState × List CallRec :=
  match (LWT_UNIX_CHECK s).descs wid with
  | some w => (LWT_UNIX_CHECK s, [⟨wid, w.data, (LWT_UNIX_CHECK s).in_blocking_section⟩])
  | none => (LWT_UNIX_CHECK s, [])

/-- `handle_timer`: same body as `handle_io`.  It does not touch the
descriptor: no re-arming. -/
def handle_timer (wid : Nat) (s : RState) : RState × List CallRec :=
  match (LWT_UNIX_CHECK s).descs wid with
  | some w => (LWT_UNIX_CHECK s, [⟨wid, w.data, (LWT_UNIX_CHECK s).in_blocking_section⟩])
  | none => (LWT_UNIX_CHECK s, [])

/-- libev's handling of a fired timer, before the trampoline is invoked: a
timer whose `repeat` is zero is stopped (it becomes inactive); a repeating
timer is re-armed and stays active. -/
def ev_timer_fired (s : RState) (wid : Nat) : RState :=
  match s.descs wid with
  | some w =>
    match w.kind with
    | some (WKind.timer _ rep) =>
      if rep = 0 then setDesc s wid (some { w with active := false }) else s
    | _ => s
  | none => s

/-- Dispatch one pending event: libev only invokes watchers that are
active; it selects the trampoline stored by the `ev_*_init` call. -/
def dispatchOne (s : RState) (wid : Nat) : RState × List CallRec :=
  match s.descs wid with
  | none => (s, [])
  | some w =>
    if w.active then
      match w.kind with
      | some (WKind.io _ _) => handle_io wid s
      | some (WKind.sig _) => handle_signal wid s
      | some (WKind.timer _ _) => handle_timer wid (ev_timer_fired s wid)
      | none => (s, [])
    else (s, [])

/-- Invoke the batch of pending watchers, in order. -/
def run_pending : RState → List Nat → RState × List CallRec
  | s, [] => (s, [])
  | s, wid :: rest =>
    let p := dispatchOne s wid
    let q := run_pending p.1 rest
    (q.1, p.2 ++ q.2)

/-- What one `ev_loop` invocation did: the value of the Blocking-Section
flag when the loop polled the OS, whether that poll was allowed to block,
and the callback invocations it dispatched. -/
structure EvTrace where
  flagAtWait : Bool
  waitBlocks : Bool
  calls : List CallRec
deriving DecidableEq

/-- `EVLOOP_ONESHOT` flag bit. -/
def EVLOOP_ONESHOT : Nat := 1

/-- `EVLOOP_NONBLOCK` flag bit. -/
def EVLOOP_NONBLOCK : Nat := 2

/-- One `ev_loop (loop, flags)` invocation in oneshot mode: reset the
loop's break state, poll the OS once (blocking unless `EVLOOP_NONBLOCK` is
set), then invoke the pending watchers' trampolines.  Which watchers the
poll reports ready is an environment fact, passed in as `ready`. -/
def ev_loop (ready : List Nat) (flags : Nat) (s : RState) : RState × EvTrace :=
  let s0 := { s with break_one := false }
  let p := run_pending s0 ready
  (p.1, ⟨s0.in_blocking_section, flags &&& EVLOOP_NONBLOCK == 0, p.2⟩)

/-- `lwt_libev_loop`: enter the blocking section, set the flag, run one
blocking oneshot round, then `LWT_UNIX_CHECK`. -/
def lwt_libev_loop (ready : List Nat) (s : RState) : RState × EvTrace :=
  let s1 := caml_enter_blocking_section s
  let s2 := { s1 with in_blocking_section := true }
  let p := ev_loop ready EVLOOP_ONESHOT s2
  (LWT_UNIX_CHECK p.1, p.2)

/-- `lwt_libev_loop_no_wait`: identical, with `EVLOOP_NONBLOCK` added to
the flags. -/
def lwt_libev_loop_no_wait (ready : List Nat) (s : RState) : RState × EvTrace :=
  let s1 := caml_enter_blocking_section s
  let s2 := { s1 with in_blocking_section := true }
  let p := ev_loop ready (EVLOOP_ONESHOT ||| EVLOOP_NONBLOCK) s2
  (LWT_UNIX_CHECK p.1, p.2)

/-- `EVUNLOOP_ONE`. -/
def EVUNLOOP_ONE : Nat := 1

/-- `lwt_libev_unloop`: `ev_unloop (lwt_unix_main_loop, EVUNLOOP_ONE)` —
record a break request against the currently running round. -/
def lwt_libev_unloop (s : RState) : RState :=
  { s with break_one := true }

/-! ## Watcher init / stop, statement by statement -/

/-- One C statement of a watcher init or stop function. -/
inductive Action where
  /-- `lwt_unix_new (struct ev_*)`: malloc a fresh descriptor. -/
  | alloc (id : Nat)
  /-- `ev_io_init` / `ev_signal_init` / `ev_timer_init`: fill in the
  kind-specific parameters and the trampoline. -/
  | ev_init (id : Nat) (k : WKind)
  /-- `caml_alloc_custom (watcher_ops, ...)`: wrap the descriptor pointer
  in an opaque custom block (the handle). -/
  | wrap (id : Nat)
  /-- `watcher->data = callback`: the non-owning link to the callback. -/
  | store_data (id : Nat) (cb : Nat)
  /-- `caml_register_generational_global_root (&watcher->data)`. -/
  | pin (id : Nat)
  /-- `ev_io_start` / `ev_signal_start` / `ev_timer_start`. -/
  | start (id : Nat)
  /-- `caml_remove_generational_global_root (&watcher->data)`. -/
  | unpin (id : Nat)
  /-- `ev_io_stop` / `ev_signal_stop` / `ev_timer_stop`. -/
  | stop_watch (id : Nat)
  /-- `free (watcher)`. -/
  | free (id : Nat)
deriving DecidableEq

/-- The state effect of one statement. -/
def Action.apply : Action → RState → RState
  | Action.alloc id, s => { setDesc s id (some ⟨none, none, false⟩) with nextId := id + 1 }
  | Action.ev_init id k, s =>
    match s.descs id with
    | some w => setDesc s id (some { w with kind := some k })
    | none => s
  | Action.wrap _, s => s
  | Action.store_data id cb, s =>
    match s.descs id with
    | some w => setDesc s id (some { w with data := some cb })
    | none => s
  | Action.pin id, s => { s with pinned := id :: s.pinned }
  | Action.start id, s =>
    match s.descs id with
    | some w => setDesc s id (some { w with active := true })
    | none => s
  | Action.unpin id, s => { s with pinned := s.pinned.erase id }
  | Action.stop_watch id, s =>
    match s.descs id with
    | some w => setDesc s id (some { w with active := false })
    | none => s
  | Action.free id, s => setDesc s id none

/-- Run a sequence of statements. -/
def applyActions (prog : List Action) (s : RState) : RState :=
  prog.foldl (fun st a => Action.apply a st) s

/-- The body of `lwt_libev_io_init`, as the sequence of statements it
executes for a fresh descriptor `id`. -/
def io_init_prog (id fd : Nat) (ev : EvEventKind) (cb : Nat) : List Action :=
  [Action.alloc id, Action.ev_init id (WKind.io fd ev), Action.wrap id,
    Action.store_data id cb, Action.pin id, Action.start id]

/-- `lwt_libev_io_init (fd, event, callback)`: returns the new state, the
handle (the descriptor's address) and the statement trace. -/
def lwt_libev_io_init (fd : Nat) (ev : EvEventKind) (cb : Nat) (s : RState) :
    (RState × Nat) × List Action :=
  let id := s.nextId
  let prog := io_init_prog id fd ev cb
  ((applyActions prog s, id), prog)

/-- `lwt_libev_readable_init`: delegate with `EV_READ`. -/
def lwt_libev_readable_init (fd cb : Nat) (s : RState) : (RState × Nat) × List Action :=
  lwt_libev_io_init fd EvEventKind.ev_read cb s

/-- `lwt_libev_writable_init`: delegate with `EV_WRITE`. -/
def lwt_libev_writable_init (fd cb : Nat) (s : RState) : (RState × Nat) × List Action :=
  lwt_libev_io_init fd EvEventKind.ev_write cb s

/-- The body of `lwt_libev_signal_init`; `conv` is the external
`caml_convert_signal_number` collaborator. -/
def signal_init_prog (id : Nat) (conv : Int → Int) (signum : Int) (cb : Nat) : List Action :=
  [Action.alloc id, Action.ev_init id (WKind.sig (conv signum)), Action.wrap id,
    Action.store_data id cb, Action.pin id, Action.start id]

/-- `lwt_libev_signal_init (signum, callback)`. -/
def lwt_libev_signal_init (conv : Int → Int) (signum : Int) (cb : Nat) (s : RState) :
    (RState × Nat) × List Action :=
  let id := s.nextId
  let prog := signal_init_prog id conv signum cb
  ((applyActions prog s, id), prog)

/-- The body of `lwt_libev_timer_init`: `ev_timer_init (watcher,
handle_timer, Double_val (delay), 0)` — the `repeat` argument is the
literal 0. -/
def timer_init_prog (id : Nat) (delay : Rat) (cb : Nat) : List Action :=
  [Action.alloc id, Action.ev_init id (WKind.timer delay 0), Action.wrap id,
    Action.store_data id cb, Action.pin id, Action.start id]

/-- `lwt_libev_timer_init (delay, callback)`. -/
def lwt_libev_timer_init (delay : Rat) (cb : Nat) (s : RState) :
    (RState × Nat) × List Action :=
  let id := s.nextId
  let prog := timer_init_prog id delay cb
  ((applyActions prog s, id), prog)

/-- The body of every stop function: unpin, stop the watch, free. -/
def stop_prog (id : Nat) : List Action :=
  [Action.unpin id, Action.stop_watch id, Action.free id]

/-- `lwt_libev_io_stop`. -/
def lwt_libev_io_stop (id : Nat) (s : RState) : RState × List Action :=
  (applyActions (stop_prog id) s, stop_prog id)

/-- `lwt_libev_signal_stop`: same statements as `lwt_libev_io_stop`. -/
def lwt_libev_signal_stop (id : Nat) (s : RState) : RState × List Action :=
  (applyActions (stop_prog id) s, stop_prog id)

/-- `lwt_libev_timer_stop`: same statements as `lwt_libev_io_stop`. -/
def lwt_libev_timer_stop (id : Nat) (s : RState) : RState × List Action :=
  (applyActions (stop_prog id) s, stop_prog id)

/-! ## The custom block's operations table -/

/-- A `struct custom_operations` table, restricted to the fields the
watcher handles use (the serialization entries of the source are the
defaults, which refuse to serialize; they play no part here). -/
structure CustomOperations where
  identifier : String
  finalize : Nat → RState → RState
  compare : Nat → Nat → Int
  hash : Nat → Int

/-- `custom_finalize_default`: the runtime's default finalizer does
nothing at all. -/
def custom_finalize_default : Nat → RState → RState := fun _ s => s

/-- `compare_watchers`: pointer difference of the two custom blocks. -/
def compare_watchers (a b : Nat) : Int := (a : Int) - (b : Int)

/-- `hash_watcher`: the custom block's address. -/
def hash_watcher (w : Nat) : Int := (w : Int)

/-- `watcher_ops`: the table every watcher handle is allocated with. -/
def watcher_ops : CustomOperations :=
  { identifier := "lwt.libev.watcher"
    finalize := custom_finalize_default
    compare := compare_watchers
    hash := hash_watcher }

/-- A fresh process: no loop, flag clear, empty heap, nothing pinned. -/
def demoState : RState :=
  { main_loop := none
    in_blocking_section := false
    runtime_released := false
    descs := fun _ => none
    pinned := []
    nextId := 0
    break_one := false }

/-! ## Helper lemmas -/

theorem check_flag_false (s : RState) : (LWT_UNIX_CHECK s).in_blocking_section = false := by
  unfold LWT_UNIX_CHECK caml_leave_blocking_section
  split <;> simp_all

theorem check_descs (s : RState) : (LWT_UNIX_CHECK s).descs = s.descs := by
  unfold LWT_UNIX_CHECK caml_leave_blocking_section
  split <;> rfl

theorem handle_io_fst (wid : Nat) (s : RState) :
    (handle_io wid s).1 = LWT_UNIX_CHECK s := by
  rcases hd : (LWT_UNIX_CHECK s).descs wid <;> simp [handle_io, hd]

theorem handle_io_rec (wid : Nat) (s : RState) (r : CallRec)
    (hr : r ∈ (handle_io wid s).2) : r.flagAtCall = false ∧ r.wid = wid := by
  rcases hd : (LWT_UNIX_CHECK s).descs wid with _ | w <;>
    simp only [handle_io, hd] at hr
  · simp at hr
  · simp only [List.mem_singleton] at hr
    subst hr
    exact ⟨check_flag_false s, rfl⟩

theorem handle_signal_eq (wid : Nat) (s : RState) :
    handle_signal wid s = handle_io wid s := rfl

theorem handle_timer_eq (wid : Nat) (s : RState) :
    handle_timer wid s = handle_io wid s := rfl

theorem ev_timer_fired_descs_other (s : RState) (wid n : Nat) (h : n ≠ wid) :
    (ev_timer_fired s wid).descs n = s.descs n := by
  rcases hd : s.descs wid with _ | w <;> simp only [ev_timer_fired, hd]
  rcases hk : w.kind with _ | k
  · simp only [hk]
  · rcases k with ⟨fd, ev⟩ | ⟨sg⟩ | ⟨a, rep⟩
    · simp only [hk]
    · simp only [hk]
    · simp only [hk]
      split
      · simp [setDesc, h]
      · rfl

theorem dispatch_rec_facts (s : RState) (wid : Nat) (r : CallRec)
    (hr : r ∈ (dispatchOne s wid).2) : r.flagAtCall = false ∧ r.wid = wid := by
  rcases hd : s.descs wid with _ | w <;> simp only [dispatchOne, hd] at hr
  · simp at hr
  · by_cases ha : w.active = true
    · rw [if_pos ha] at hr
      rcases hk : w.kind with _ | k <;> simp only [hk] at hr
      · simp at hr
      · rcases k with ⟨fd, ev⟩ | ⟨sg⟩ | ⟨a, rep⟩ <;> dsimp only at hr
        · exact handle_io_rec _ _ _ hr
        · rw [handle_signal_eq] at hr
          exact handle_io_rec _ _ _ hr
        · rw [handle_timer_eq] at hr
          exact handle_io_rec _ _ _ hr
    · rw [if_neg ha] at hr
      simp at hr

theorem dispatch_descs_other (s : RState) (wid n : Nat) (h : n ≠ wid) :
    (dispatchOne s wid).1.descs n = s.descs n := by
  rcases hd : s.descs wid with _ | w
  · simp only [dispatchOne, hd]
  · simp only [dispatchOne, hd]
    by_cases ha : w.active = true
    · rw [if_pos ha]
      rcases hk : w.kind with _ | k
      · simp only [hk]
      · rcases k with ⟨fd, ev⟩ | ⟨sg⟩ | ⟨a, rep⟩ <;> simp only [hk]
        · rw [handle_io_fst, check_descs]
        · rw [handle_signal_eq, handle_io_fst, check_descs]
        · rw [handle_timer_eq, handle_io_fst, check_descs,
            ev_timer_fired_descs_other s wid n h]
    · rw [if_neg ha]

theorem dispatch_inactive (s : RState) (wid : Nat) (w : EvWatcher)
    (hd : s.descs wid = some w) (ha : w.active = false) :
    dispatchOne s wid = (s, []) := by
  simp only [dispatchOne, hd, ha]
  simp

theorem run_pending_flag (l : List Nat) :
    ∀ (s : RState) (r : CallRec), r ∈ (run_pending s l).2 → r.flagAtCall = false := by
  induction l with
  | nil => intro s r hr; simp [run_pending] at hr
  | cons wid rest ih =>
    intro s r hr
    simp only [run_pending, List.mem_append] at hr
    rcases hr with h | h
    · exact (dispatch_rec_facts _ _ _ h).1
    · exact ih _ _ h

theorem run_pending_inactive (l : List Nat) :
    ∀ (s : RState) (wid : Nat) (w : EvWatcher),
      s.descs wid = some w → w.active = false →
      (run_pending s l).1.descs wid = some w ∧
        ∀ r ∈ (run_pending s l).2, r.wid ≠ wid := by
  induction l with
  | nil => intro s wid w hd _; exact ⟨hd, by simp [run_pending]⟩
  | cons wid' rest ih =>
    intro s wid w hd ha
    by_cases he : wid' = wid
    · subst he
      have hstep := dispatch_inactive s wid' w hd ha
      have ⟨h1, h2⟩ := ih s wid' w hd ha
      refine ⟨?_, ?_⟩
      · simp only [run_pending, hstep]
        exact h1
      · intro r hr
        simp only [run_pending, hstep, List.nil_append] at hr
        exact h2 r hr
    · have hd' : (dispatchOne s wid').1.descs wid = some w := by
        rw [dispatch_descs_other s wid' wid (fun h => he h.symm)]
        exact hd
      have ⟨h1, h2⟩ := ih (dispatchOne s wid').1 wid w hd' ha
      refine ⟨h1, ?_⟩
      intro r hr
      simp only [run_pending, List.mem_append] at hr
      rcases hr with h | h
      · have := (dispatch_rec_facts _ _ _ h).2
        rw [this]
        exact fun hc => he hc
      · exact h2 r h

/-- Dispatching an active zero-repeat timer: libev stops it, then the
trampoline checks the flag and invokes the callback once. -/
theorem dispatch_timer_fire (t : RState) (wid : Nat) (d : Rat) (c : Nat)
    (hd : t.descs wid = some ⟨some (WKind.timer d 0), some c, true⟩) :
    dispatchOne t wid =
      (LWT_UNIX_CHECK (ev_timer_fired t wid), [⟨wid, some c, false⟩]) := by
  have hdesc : (LWT_UNIX_CHECK (ev_timer_fired t wid)).descs wid =
      some ⟨some (WKind.timer d 0), some c, false⟩ := by
    rw [check_descs]
    simp [ev_timer_fired, hd, setDesc]
  simp only [dispatchOne, hd]
  simp only [handle_timer, hdesc]
  simp [check_flag_false]

/-- The joint effect of the six statements every init function executes:
the descriptor at `id` ends initialised, linked to the callback and
started; the callback is pinned; the allocator moves on.  Nothing else
changes. -/
theorem init_actions_effect (s : RState) (id : Nat) (k : WKind) (cb : Nat) :
    applyActions [Action.alloc id, Action.ev_init id k, Action.wrap id,
      Action.store_data id cb, Action.pin id, Action.start id] s =
    { s with
      descs := fun n => if n = id then some ⟨some k, some cb, true⟩ else s.descs n,
      pinned := id :: s.pinned,
      nextId := id + 1 } := by
  simp only [applyActions, List.foldl_cons, List.foldl_nil, Action.apply, setDesc]
  ext n <;> simp
  by_cases hn : n = id <;> simp [hn]

/-- The joint effect of the three statements every stop function
executes: the callback is unpinned and the descriptor at `id` is gone.
Nothing else changes. -/
theorem stop_actions_effect (s : RState) (id : Nat) :
    applyActions (stop_prog id) s =
    { s with
      descs := fun n => if n = id then none else s.descs n,
      pinned := s.pinned.erase id } := by
  simp only [stop_prog, applyActions, List.foldl_cons, List.foldl_nil, Action.apply, setDesc]
  rcases hd : s.descs id with _ | w <;> simp only [hd] <;> ext n <;> simp <;>
    by_cases hn : n = id <;> simp [hn]

/-! ## The claims -/

/-- C1: in every drive call (`lwt_libev_loop` / `lwt_libev_loop_no_wait`)
the Blocking-Section flag is true immediately before the OS wait, is false
at the moment every dispatched trampoline invokes its pinned callback, and
is false when the drive call returns — also in rounds that dispatch zero
callbacks (`ready` may be empty or name no live watcher). -/
theorem C1_blocking_section_protocol (s : RState) (ready : List Nat) :
    ((lwt_libev_loop ready s).2.flagAtWait = true ∧
      (lwt_libev_loop ready s).1.in_blocking_section = false ∧
      ∀ r ∈ (lwt_libev_loop ready s).2.calls, r.flagAtCall = false) ∧
    ((lwt_libev_loop_no_wait ready s).2.flagAtWait = true ∧
      (lwt_libev_loop_no_wait ready s).1.in_blocking_section = false ∧
      ∀ r ∈ (lwt_libev_loop_no_wait ready s).2.calls, r.flagAtCall = false) := by
  refine ⟨⟨rfl, check_flag_false _, ?_⟩, ⟨rfl, check_flag_false _, ?_⟩⟩
  · intro r hr
    exact run_pending_flag ready _ r hr
  · intro r hr
    exact run_pending_flag ready _ r hr

/-- C2: every init performs, in order: allocate the descriptor, initialise
it with its kind-specific parameters (fd and direction; converted signal
number; delay with zero repeat), wrap it in the opaque handle, store the
non-owning callback link and pin the callback, start the watch, and return
the handle; afterwards the descriptor is initialised, linked, pinned and
active.  Every stop performs: unpin, stop the watch, release the
descriptor. -/
theorem C2_watcher_init_stop_order (s : RState) (conv : Int → Int)
    (fd cb id : Nat) (signum : Int) (delay : Rat) :
    (lwt_libev_readable_init fd cb s).2 =
      [Action.alloc s.nextId, Action.ev_init s.nextId (WKind.io fd EvEventKind.ev_read),
        Action.wrap s.nextId, Action.store_data s.nextId cb, Action.pin s.nextId,
        Action.start s.nextId] ∧
    (lwt_libev_writable_init fd cb s).2 =
      [Action.alloc s.nextId, Action.ev_init s.nextId (WKind.io fd EvEventKind.ev_write),
        Action.wrap s.nextId, Action.store_data s.nextId cb, Action.pin s.nextId,
        Action.start s.nextId] ∧
    (lwt_libev_signal_init conv signum cb s).2 =
      [Action.alloc s.nextId, Action.ev_init s.nextId (WKind.sig (conv signum)),
        Action.wrap s.nextId, Action.store_data s.nextId cb, Action.pin s.nextId,
        Action.start s.nextId] ∧
    (lwt_libev_timer_init delay cb s).2 =
      [Action.alloc s.nextId, Action.ev_init s.nextId (WKind.timer delay 0),
        Action.wrap s.nextId, Action.store_data s.nextId cb, Action.pin s.nextId,
        Action.start s.nextId] ∧
    (lwt_libev_readable_init fd cb s).1.2 = s.nextId ∧
    (lwt_libev_readable_init fd cb s).1.1.descs s.nextId =
      some ⟨some (WKind.io fd EvEventKind.ev_read), some cb, true⟩ ∧
    (lwt_libev_readable_init fd cb s).1.1.pinned = s.nextId :: s.pinned ∧
    (lwt_libev_signal_init conv signum cb s).1.1.descs s.nextId =
      some ⟨some (WKind.sig (conv signum)), some cb, true⟩ ∧
    (lwt_libev_timer_init delay cb s).1.1.descs s.nextId =
      some ⟨some (WKind.timer delay 0), some cb, true⟩ ∧
    (lwt_libev_io_stop id s).2 =
      [Action.unpin id, Action.stop_watch id, Action.free id] ∧
    (lwt_libev_signal_stop id s).2 =
      [Action.unpin id, Action.stop_watch id, Action.free id] ∧
    (lwt_libev_timer_stop id s).2 =
      [Action.unpin id, Action.stop_watch id, Action.free id] ∧
    (lwt_libev_io_stop id s).1.descs id = none ∧
    (lwt_libev_io_stop id s).1.pinned = s.pinned.erase id := by
  refine ⟨rfl, rfl, rfl, rfl, rfl, ?_, ?_, ?_, ?_, rfl, rfl, rfl, ?_, ?_⟩
  · show (applyActions (io_init_prog s.nextId fd EvEventKind.ev_read cb) s).descs s.nextId = _
    rw [io_init_prog, init_actions_effect]
    simp
  · show (applyActions (io_init_prog s.nextId fd EvEventKind.ev_read cb) s).pinned = _
    rw [io_init_prog, init_actions_effect]
  · show (applyActions (signal_init_prog s.nextId conv signum cb) s).descs s.nextId = _
    rw [signal_init_prog, init_actions_effect]
    simp
  · show (applyActions (timer_init_prog s.nextId delay cb) s).descs s.nextId = _
    rw [timer_init_prog, init_actions_effect]
    simp
  · show (applyActions (stop_prog id) s).descs id = none
    rw [stop_actions_effect]
    simp
  · show (applyActions (stop_prog id) s).pinned = s.pinned.erase id
    rw [stop_actions_effect]

/-- C3: when creating the default loop fails during `lwt_libev_init`, the
call aborts with the `caml_failwith` failure and leaves the singleton
NULL — no partial state is registered. -/
theorem C3_init_failure_fatal (s : RState) :
    lwt_libev_init false { s with main_loop := none } =
      ({ s with main_loop := none },
        Except.error "lwt_libev_init: could not initialise the default loop") := rfl

/-- C4: `lwt_libev_init` on an already-initialised singleton is a no-op
(whatever the loop value and whether a fresh creation would succeed), and
`lwt_libev_stop` on an uninitialised singleton is a no-op. -/
theorem C4_init_stop_idempotent (s : RState) (ok : Bool) (l : Nat) :
    lwt_libev_init ok { s with main_loop := some l } =
      ({ s with main_loop := some l }, Except.ok ()) ∧
    lwt_libev_stop { s with main_loop := none } = { s with main_loop := none } :=
  ⟨rfl, rfl⟩

/-- C5: timers are one-shot.  `lwt_libev_timer_init` initialises the timer
with the given delay and a repeat of zero; the trampoline never touches the
descriptor heap (no re-arming); dispatching an active zero-repeat timer
invokes its callback exactly once and leaves it inactive; and an inactive
watcher survives any later multiplexer round untouched and is never
dispatched by it. -/
theorem C5_timer_one_shot (s : RState) (delay : Rat) (cb : Nat) :
    (lwt_libev_timer_init delay cb s).1.1.descs s.nextId =
      some ⟨some (WKind.timer delay 0), some cb, true⟩ ∧
    (∀ (wid : Nat) (t : RState), (handle_timer wid t).1.descs = t.descs) ∧
    (∀ (t : RState) (wid : Nat) (d : Rat) (c : Nat),
      t.descs wid = some ⟨some (WKind.timer d 0), some c, true⟩ →
        (dispatchOne t wid).2 = [⟨wid, some c, false⟩] ∧
        (dispatchOne t wid).1.descs wid =
          some ⟨some (WKind.timer d 0), some c, false⟩) ∧
    (∀ (t : RState) (wid : Nat) (w : EvWatcher) (ready : List Nat) (flags : Nat),
      t.descs wid = some w → w.active = false →
        (ev_loop ready flags t).1.descs wid = some w ∧
        ∀ r ∈ (ev_loop ready flags t).2.calls, r.wid ≠ wid) := by
  refine ⟨?_, ?_, ?_, ?_⟩
  · show (applyActions (timer_init_prog s.nextId delay cb) s).descs s.nextId = _
    rw [timer_init_prog, init_actions_effect]
    simp
  · intro wid t
    rw [handle_timer_eq, handle_io_fst, check_descs]
  · intro t wid d c hd
    rw [dispatch_timer_fire t wid d c hd]
    refine ⟨rfl, ?_⟩
    show (LWT_UNIX_CHECK (ev_timer_fired t wid)).descs wid = _
    rw [check_descs]
    simp [ev_timer_fired, hd, setDesc]
  · intro t wid w ready flags hd ha
    have hd0 : ({ t with break_one := false } : RState).descs wid = some w := hd
    have h := run_pending_inactive ready { t with break_one := false } wid w hd0 ha
    exact ⟨h.1, fun r hr => h.2 r hr⟩

/-- C6: a readable and a writable watcher registered on the same fd are
independent: the two init calls yield distinct handles with their own
descriptors, links and pins, and stopping either one leaves the other's
descriptor (parameters, callback link, active watch) and pin unchanged
while its own descriptor is freed. -/
theorem C6_read_write_independent (s : RState) (fd cbr cbw : Nat) :
    (lwt_libev_readable_init fd cbr s).1.2 ≠
      (lwt_libev_writable_init fd cbw (lwt_libev_readable_init fd cbr s).1.1).1.2 ∧
    (let s2 := (lwt_libev_writable_init fd cbw (lwt_libev_readable_init fd cbr s).1.1).1.1
     let h1 := (lwt_libev_readable_init fd cbr s).1.2
     let h2 := (lwt_libev_writable_init fd cbw (lwt_libev_readable_init fd cbr s).1.1).1.2
     s2.descs h1 = some ⟨some (WKind.io fd EvEventKind.ev_read), some cbr, true⟩ ∧
     s2.descs h2 = some ⟨some (WKind.io fd EvEventKind.ev_write), some cbw, true⟩ ∧
     (lwt_libev_io_stop h1 s2).1.descs h2 = s2.descs h2 ∧
     h2 ∈ (lwt_libev_io_stop h1 s2).1.pinned ∧
     (lwt_libev_io_stop h1 s2).1.descs h1 = none ∧
     (lwt_libev_io_stop h2 s2).1.descs h1 = s2.descs h1 ∧
     h1 ∈ (lwt_libev_io_stop h2 s2).1.pinned ∧
     (lwt_libev_io_stop h2 s2).1.descs h2 = none) := by
  have e1 : (lwt_libev_readable_init fd cbr s).1.1 =
      applyActions (io_init_prog s.nextId fd EvEventKind.ev_read cbr) s := rfl
  have e2 : (lwt_libev_readable_init fd cbr s).1.2 = s.nextId := rfl
  constructor
  · show s.nextId ≠ (applyActions (io_init_prog s.nextId fd EvEventKind.ev_read cbr) s).nextId
    rw [io_init_prog, init_actions_effect]
    simp
  · rw [e1, e2, io_init_prog, init_actions_effect]
    simp only [lwt_libev_writable_init, lwt_libev_io_init, io_init_prog,
      init_actions_effect, lwt_libev_io_stop, stop_actions_effect]
    have hne : s.nextId ≠ s.nextId + 1 := by omega
    refine ⟨by simp [hne], by simp, by simp [hne], by simp [hne], by simp, ?_, ?_, ?_⟩
    · simp [hne, (by omega : s.nextId + 1 ≠ s.nextId)]
    · simp [List.erase_cons, (by omega : s.nextId + 1 ≠ s.nextId)]
    · simp

/-- C7: `LWT_UNIX_CHECK` (check-and-leave) is idempotent: if the flag is
true it clears the flag and leaves the runtime's blocking section exactly
once; if the flag is already false it changes nothing; hence applying it
twice equals applying it once. -/
theorem C7_check_and_leave_idempotent (s : RState) :
    LWT_UNIX_CHECK (LWT_UNIX_CHECK s) = LWT_UNIX_CHECK s ∧
    LWT_UNIX_CHECK s =
      (if s.in_blocking_section then
        { s with in_blocking_section := false, runtime_released := false }
      else s) := by
  by_cases hb : s.in_blocking_section = true <;>
    simp [LWT_UNIX_CHECK, caml_leave_blocking_section, hb]

/-- C8: `lwt_libev_loop_no_wait` performs exactly the same steps as
`lwt_libev_loop` — it produces the same state and the same callback
dispatches with the same flag-at-wait — differing only in that its
multiplexer poll does not block. -/
theorem C8_nonblocking_matches_blocking (s : RState) (ready : List Nat) :
    (lwt_libev_loop_no_wait ready s).1 = (lwt_libev_loop ready s).1 ∧
    (lwt_libev_loop_no_wait ready s).2.calls = (lwt_libev_loop ready s).2.calls ∧
    (lwt_libev_loop_no_wait ready s).2.flagAtWait =
      (lwt_libev_loop ready s).2.flagAtWait ∧
    (lwt_libev_loop ready s).2.waitBlocks = true ∧
    (lwt_libev_loop_no_wait ready s).2.waitBlocks = false :=
  ⟨rfl, rfl, rfl, rfl, rfl⟩

/-- C9: `lwt_libev_unloop` only records a break request against the
currently running round: it changes nothing but that request — not the
watchers, the pins, the singleton, the Blocking-Section flag or the
allocator — and future drive calls behave exactly as if it had never been
called (each round resets the request on entry). -/
theorem C9_unloop_requests_current_round_only (s : RState) (ready : List Nat) :
    lwt_libev_unloop s = { s with break_one := true } ∧
    (lwt_libev_unloop s).descs = s.descs ∧
    (lwt_libev_unloop s).pinned = s.pinned ∧
    (lwt_libev_unloop s).main_loop = s.main_loop ∧
    (lwt_libev_unloop s).in_blocking_section = s.in_blocking_section ∧
    (lwt_libev_unloop s).runtime_released = s.runtime_released ∧
    (lwt_libev_unloop s).nextId = s.nextId ∧
    lwt_libev_loop ready (lwt_libev_unloop s) = lwt_libev_loop ready s ∧
    lwt_libev_loop_no_wait ready (lwt_libev_unloop s) =
      lwt_libev_loop_no_wait ready s :=
  ⟨rfl, rfl, rfl, rfl, rfl, rfl, rfl, rfl, rfl⟩

/-- C10: the watcher handle's finalizer is the runtime's default, a no-op:
collecting a handle releases nothing and unpins nothing; only the matching
stop call frees the descriptor and removes the pin.  Dropping a handle
without stopping it therefore leaks both. -/
theorem C10_finalizer_is_noop (id : Nat) (s : RState) :
    watcher_ops.finalize = custom_finalize_default ∧
    watcher_ops.finalize id s = s ∧
    (lwt_libev_io_stop id s).1.descs id = none ∧
    (lwt_libev_io_stop id s).1.pinned = s.pinned.erase id ∧
    (lwt_libev_signal_stop id s).1.descs id = none ∧
    (lwt_libev_signal_stop id s).1.pinned = s.pinned.erase id ∧
    (lwt_libev_timer_stop id s).1.descs id = none ∧
    (lwt_libev_timer_stop id s).1.pinned = s.pinned.erase id := by
  refine ⟨rfl, rfl, ?_, ?_, ?_, ?_, ?_, ?_⟩ <;>
    simp [lwt_libev_io_stop, lwt_libev_signal_stop, lwt_libev_timer_stop,
      stop_actions_effect]

/-! ## Concrete runs of the model -/

example : (lwt_libev_init true demoState).1.main_loop = some 0 := rfl

example : (lwt_libev_init false demoState).2 =
    Except.error "lwt_libev_init: could not initialise the default loop" := rfl

example : (lwt_libev_timer_init 5 7 demoState).1.1.descs 0 =
    some ⟨some (WKind.timer 5 0), some 7, true⟩ := rfl

example : (lwt_libev_timer_init 5 7 demoState).1.1.pinned = [0] := rfl

example :
    (lwt_libev_loop [0] (lwt_libev_timer_init 5 7 demoState).1.1).2.calls =
      [⟨0, some 7, false⟩] := rfl

example :
    (lwt_libev_loop [0]
      (lwt_libev_loop [0] (lwt_libev_timer_init 5 7 demoState).1.1).1).2.calls =
      [] := rfl

example : (lwt_libev_loop [] demoState).2.flagAtWait = true := rfl

example : (lwt_libev_loop [] demoState).1.in_blocking_section = false := rfl

example :
    (lwt_libev_io_stop 0 (lwt_libev_readable_init 3 9 demoState).1.1).1.pinned =
      [] := rfl

end LwtLibev
